import Mathlib

/-!
Verification development for the `automatos-unified-adapter` tool-execution
gateway. The Python sources under `src/unified_adapter/` are shallowly
embedded below: JSON-ish payload values become `JValue`, Python dicts become
association lists, stateful components (registry cache, OpenAPI spec cache)
become explicit state passing, network collaborators become oracle functions,
and raised exceptions become `Except` errors. Each definition mirrors one
source function and keeps its name where Lean allows.
-/

set_option maxRecDepth 8192

/-- JSON-like runtime value, the payload universe of the adapter.
Numbers are modelled as integers (no claim depends on float semantics);
Python `None` is `null`. -/
inductive JValue where
  | null
  | bool (b : Bool)
  | num (n : Int)
  | str (s : String)
  | arr (xs : List JValue)
  | obj (fields : List (String × JValue))

/-- Python truthiness of a value: `None`, `False`, `0`, `""`, `[]`, `{}`
are falsy, everything else truthy. -/
def JValue.truthy : JValue → Bool
  | .null => false
  | .bool b => b
  | .num n => n != 0
  | .str s => !s.isEmpty
  | .arr xs => !xs.isEmpty
  | .obj fs => !fs.isEmpty

/-- Truthiness of an optional value (`None` when the key was absent). -/
def truthyO : Option JValue → Bool
  | none => false
  | some v => v.truthy

/-- Python `==` between a runtime value and a string literal: only a `str`
of the same characters compares equal. -/
def jeqStr (v : JValue) (s : String) : Bool :=
  match v with
  | .str t => t = s
  | _ => false

/-- Python `str()` of the scalar values the adapter stringifies
(query/form parameters). Containers get a simple rendering; no claim
depends on their exact text. -/
def pyStr : JValue → String
  | .null => "None"
  | .bool b => if b then "True" else "False"
  | .num n => toString n
  | .str s => s
  | .arr _ => "<arr>"
  | .obj _ => "<obj>"

/-- A Python dict of JSON values, as an association list in insertion order. -/
abbrev PyDict := List (String × JValue)

/-- `d.get(k)`: first binding of `k`, `None` (i.e. `none`) when absent. -/
def dget (d : PyDict) (k : String) : Option JValue :=
  (d.find? (fun p => p.1 = k)).map (fun p => p.2)

/-- `d.get(k, default)`. -/
def dgetD (d : PyDict) (k : String) (default : JValue) : JValue :=
  (dget d k).getD default

/-- `d.pop(k, None)` / `del d[k]`: the dict without the binding for `k`. -/
def dremove (d : PyDict) (k : String) : PyDict :=
  d.filter (fun p => p.1 ≠ k)

/-- `k in d`. -/
def dcontains (d : PyDict) (k : String) : Bool :=
  (dget d k).isSome

/-- `.get(k)` on an arbitrary value: only objects have fields. -/
def jget (v : JValue) (k : String) : Option JValue :=
  match v with
  | .obj fs => dget fs k
  | _ => none

/-- `.items()` on a value assumed to be a dict. -/
def JValue.objFields : JValue → PyDict
  | .obj fs => fs
  | _ => []

/-- The string payload of a value expected to be a `str` (other shapes are
stringified, matching how Python would interpolate them). -/
def JValue.asStr : JValue → String
  | .str s => s
  | v => pyStr v

/-- `a or b` for two Python values (left when truthy, else right). -/
def pyOr (a b : JValue) : JValue :=
  if a.truthy then a else b

/-- Wrap an `Optional[str]` the way Python carries it inside a dict. -/
def optS : Option String → JValue
  | none => .null
  | some s => .str s

/-- String dict (`Dict[str, str]`) used for headers / query parameters. -/
abbrev StrDict := List (String × String)

/-- `d[k] = v` on a string dict: replace in place, else append. -/
def sinsert (d : StrDict) (k v : String) : StrDict :=
  if d.any (fun p => p.1 = k) then
    d.map (fun p => if p.1 = k then (k, v) else p)
  else
    d ++ [(k, v)]

/-- `d.update(e)` on string dicts. -/
def supdate (d e : StrDict) : StrDict :=
  e.foldl (fun acc p => sinsert acc p.1 p.2) d

/-!  Character-list string helpers.  Core `String` primitives such as
`String.startsWith` do not reduce inside the kernel, so the embedding works
on `List Char` and rebuilds `String`s; for the ASCII identifiers, URLs and
paths the adapter manipulates this agrees with the Python code. -/

/-- Python `str.strip(ch)` specialised to one character. -/
def stripChar (s : String) (c : Char) : String :=
  String.mk (((s.toList.dropWhile (fun ch => ch = c)).reverse.dropWhile
    (fun ch => ch = c)).reverse)

/-- Python `str.rstrip(ch)` specialised to one character. -/
def rstripChar (s : String) (c : Char) : String :=
  String.mk ((s.toList.reverse.dropWhile (fun ch => ch = c)).reverse)

/-- `s.startswith(p)`. -/
def strStartsWith (s p : String) : Bool :=
  p.toList.isPrefixOf s.toList

/-- Substring test (`p in s` for strings). -/
def strContainsSub (s p : String) : Bool :=
  s.toList.tails.any (fun t => p.toList.isPrefixOf t)

/-- Fuelled worker for `strReplace`; consumes at least one character of the
subject per step, so fuel `l.length` suffices. -/
def replaceListAux (pat rep : List Char) : Nat → List Char → List Char
  | 0, l => l
  | _ + 1, [] => []
  | fuel + 1, c :: rest =>
    if pat ≠ [] ∧ pat.isPrefixOf (c :: rest) then
      rep ++ replaceListAux pat rep fuel ((c :: rest).drop pat.length)
    else
      c :: replaceListAux pat rep fuel rest

/-- Python `s.replace(pat, rep)`: every non-overlapping occurrence,
left to right (empty patterns never occur in the sources). -/
def strReplace (s pat rep : String) : String :=
  String.mk (replaceListAux pat.toList rep.toList s.toList.length s.toList)

/-- `s.lower()` (ASCII). -/
def strLower (s : String) : String :=
  String.mk (s.toList.map Char.toLower)

/-- `s.upper()` (ASCII). -/
def strUpper (s : String) : String :=
  String.mk (s.toList.map Char.toUpper)

/-- `ToolRegistry._sanitize_name`: lower-case and replace every
non-alphanumeric character with an underscore (source decides per character
via `ch.isalnum()`; the claims exercise ASCII names). -/
def sanitizeName (name : String) : String :=
  String.mk (name.toList.map (fun ch => if ch.isAlphanum then ch.toLower else '_'))

/-- `ToolRegistry._format_tool_name`: `"mcp_" + sanitize(tool_name or
"tool") + "_" + sanitize(method)`.  Python's `or` falls back to `"tool"`
both when the name is `None` and when it is the empty string (falsy). -/
def formatToolName (toolName : Option String) (method : String) : String :=
  let base :=
    match toolName with
    | some s => if s = "" then "tool" else s
    | none => "tool"
  "mcp_" ++ sanitizeName base ++ "_" ++ sanitizeName method

/-- `AdapterService._extract_tool_name`: strip the `"mcp_"` marker and keep
the first underscore-delimited segment (Python splits with maxsplit 1 and
takes element 0, which is the run of characters before the first
underscore). -/
def extractToolName (toolName : String) : String :=
  if strStartsWith toolName "mcp_" then
    String.mk ((toolName.toList.drop 4).takeWhile (fun ch => ch ≠ '_'))
  else
    toolName


/-! ## Data model (`models.py`, `tool_store.py`) -/

/-- `models.CredentialRef`. -/
structure CredentialRef where
  credential_id : Option Int := none
  credential_name : Option String := none
  credential_type : Option String := none
  environment : String := "production"

/-- `models.RestOperation` (the pydantic `input_model` carries no execution
semantics and is omitted; no claim mentions it). -/
structure RestOperation where
  operation_id : String
  method : String
  path : String
  base_url : String
  description : String := ""

/-- `models.McpOperation`. -/
structure McpOperation where
  method : String
  server_url : String

/-- `models.AdapterTool` (again without the pydantic `input_model`). -/
structure AdapterTool where
  tool_name : String
  description : String
  provider : String
  category : String
  adapter_type : String
  credential_mode : String
  credential_ref : CredentialRef
  rest_operation : Option RestOperation := none
  mcp_operation : Option McpOperation := none
  metadata : Option PyDict := none
  tags : List String := []

/-- `tool_store.ToolRecord`, the persisted catalog row. -/
structure ToolRecord where
  id : Int
  name : String
  description : String := ""
  provider : String := "unknown"
  category : String := "other"
  adapter_type : String
  enabled : Bool := true
  mcp_server_url : Option String := none
  openapi_url : Option String := none
  base_url : Option String := none
  operation_ids : List String := []
  auth_config : PyDict := []
  tags : List String := []
  credential_mode : String := "hosted"
  credential_id : Option Int := none
  credential_name : Option String := none
  credential_environment : String := "production"
  org_id : Option String := none

/-! ## Execution service (`service.py`) -/

/-- A fault escaping a Python function: an `ExecutionError` raised by the
adapter itself, or the `AttributeError` Python raises on a missing method. -/
inductive Fault where
  | executionError (msg : String)
  | attributeError (msg : String)

/-- One call made against the upstream Automatos client, recorded with its
arguments (`automatos_client.py`). -/
inductive ClientCall where
  | resolveToolCredential (tenantId : Option JValue) (toolName serviceName : String)
  | resolveCredential (credentialId : Option Int) (credentialName : Option JValue)
      (environment serviceName : String)
  | getCredentialTypeId (typeName : String)
  | listCredentials (credentialTypeId : Option Int) (environment : String)

/-- Responses of the upstream service, as oracle functions.  `AutomatosClient`
(`automatos_client.py` lines 13-102) defines `resolve_credential`,
`get_credential_type_id` and `list_credentials` — but *no*
`resolve_tool_credential`, although `service.py` line 149 calls it; that
missing method is therefore not part of this structure. -/
structure Upstream where
  resolveCredential : Option Int → Option JValue → String → String → Option PyDict
  getCredentialTypeId : String → Option Int
  listCredentials : Option Int → String → List PyDict

/-- The slice of `config.Settings` the service reads. -/
structure SvcSettings where
  service_name : String := "automatos-unified-adapter"

/-- Python truthiness of an `Optional[int]` (`None` and `0` are falsy). -/
def truthyInt : Option Int → Bool
  | none => false
  | some n => n != 0

/-- Python truthiness of an `Optional[str]`. -/
def truthyStr : Option String → Bool
  | none => false
  | some s => !s.isEmpty

/-- Python truthiness of an optional dict result. -/
def truthyOD : Option PyDict → Bool
  | none => false
  | some d => !d.isEmpty

/-- `AdapterService._resolve_credentials_legacy`.  Returns the resolved
credentials (`none` models Python `return None`) or a raised fault, paired
with the upstream calls it performed. -/
def resolveCredentialsLegacy (settings : SvcSettings) (up : Upstream)
    (tool : AdapterTool) (payloadCredentials : Option JValue) :
    Except Fault (Option JValue) × List ClientCall :=
  if tool.credential_mode = "byo" then
    if !truthyO payloadCredentials then
      (.error (.executionError "Missing credentials for BYO tool call"), [])
    else
      (.ok payloadCredentials, [])
  else
    let ref := tool.credential_ref
    if truthyInt ref.credential_id || truthyStr ref.credential_name then
      let nameArg := ref.credential_name.map JValue.str
      let resolved := up.resolveCredential ref.credential_id nameArg
        ref.environment settings.service_name
      let calls := [ClientCall.resolveCredential ref.credential_id nameArg
        ref.environment settings.service_name]
      if !truthyOD resolved then
        (.error (.executionError "Hosted credential not found"), calls)
      else
        (.ok (resolved.map JValue.obj), calls)
    else if truthyStr ref.credential_type then
      let typeName := ref.credential_type.getD ""
      let typeId := up.getCredentialTypeId typeName
      let calls := [ClientCall.getCredentialTypeId typeName]
      if !truthyInt typeId then
        (.ok none, calls)
      else
        let creds := up.listCredentials typeId ref.environment
        let calls := calls ++ [ClientCall.listCredentials typeId ref.environment]
        if creds.isEmpty then
          (.error (.executionError "Hosted credential not found"), calls)
        else
          let credentialName := dget (creds.headD []) "name"
          let resolved := up.resolveCredential none credentialName
            ref.environment settings.service_name
          let calls := calls ++ [ClientCall.resolveCredential none credentialName
            ref.environment settings.service_name]
          if !truthyOD resolved then
            (.error (.executionError "Hosted credential not found"), calls)
          else
            (.ok (resolved.map JValue.obj), calls)
    else
      (.error (.executionError "Hosted credential reference missing"), [])

/-- `AdapterService._resolve_credentials_v2`.  In hosted mode the source
accesses `self.automatos_client.resolve_tool_credential`, an attribute that
`AutomatosClient` does not define, so Python raises `AttributeError` before
any upstream request is made. -/
def resolveCredentialsV2 (settings : SvcSettings) (up : Upstream)
    (tool : AdapterTool) (credentialMode : JValue) (_tenantId : Option JValue)
    (byoCredentials : Option JValue) :
    Except Fault (Option JValue) × List ClientCall :=
  if jeqStr credentialMode "byo" then
    if !truthyO byoCredentials then
      (.error (.executionError "Missing credentials for BYO tool call"), [])
    else
      (.ok byoCredentials, [])
  else if jeqStr credentialMode "hosted" then
    (.error (.attributeError
      "AutomatosClient object has no attribute resolve_tool_credential"), [])
  else
    resolveCredentialsLegacy settings up tool byoCredentials

/-- `AdapterService._format_result`. -/
def formatResult (result : JValue) : JValue :=
  .obj [("content", .arr [.obj [("type", .str "json"), ("json", result)]])]

/-- `AdapterService._format_error`. -/
def formatError (message : String) : JValue :=
  .obj [("content", .arr [.obj [("type", .str "text"), ("text", .str message)]]),
    ("is_error", .bool true)]

/-- What an executor does when invoked: its returned value or the
`ExecutionError` message it raises after exhausting retries.  The service
hands it the (stripped) payload and the resolved credentials. -/
abbrev ExecOracle := PyDict → Option JValue → Except String JValue

/-- Everything observable about one `execute_tool` run: the value returned
(or the fault that escaped), the upstream calls made, the effective
credential mode, the payload/credentials handed to an executor (if any),
and whether the `"Unsupported tool configuration"` branch fired. -/
structure ExecOutcome where
  result : Except Fault JValue
  calls : List ClientCall
  mode : JValue
  dispatched : Option (PyDict × Option JValue)
  unsupported : Bool

/-- The `try:` block of `AdapterService.execute_tool` (`service.py` lines
96-111): pick the executor matching the adapter type and its operation
descriptor, convert a raised `ExecutionError` into the error envelope, and
fall through to the `"Unsupported tool configuration"` envelope otherwise.
`payload` is the already-stripped payload, `calls`/`credentialMode` carry
the context established before the block. -/
def dispatchTool (restExec mcpExec : ExecOracle) (tool : AdapterTool)
    (payload : PyDict) (credentialMode : JValue) (calls : List ClientCall)
    (credentials : Option JValue) : ExecOutcome :=
  if tool.adapter_type = "rest" && tool.rest_operation.isSome then
    match restExec payload credentials with
    | .ok r =>
      { result := .ok (formatResult r), calls := calls, mode := credentialMode,
        dispatched := some (payload, credentials), unsupported := false }
    | .error e =>
      { result := .ok (formatError e), calls := calls, mode := credentialMode,
        dispatched := some (payload, credentials), unsupported := false }
  else if tool.adapter_type = "mcp" && tool.mcp_operation.isSome then
    match mcpExec payload credentials with
    | .ok r =>
      { result := .ok (formatResult r), calls := calls, mode := credentialMode,
        dispatched := some (payload, credentials), unsupported := false }
    | .error e =>
      { result := .ok (formatError e), calls := calls, mode := credentialMode,
        dispatched := some (payload, credentials), unsupported := false }
  else
    { result := .ok (formatError "Unsupported tool configuration"),
      calls := calls, mode := credentialMode, dispatched := none,
      unsupported := true }

/-- Lines 63-86 of `execute_tool`: pop the `"credentials"` payload field,
infer BYO credentials from it, from a `"token"` payload field, or from the
request meta, and auto-detect the effective credential mode.  Returns the
stripped payload, the final caller credentials, the mode value, and the
tenant id. -/
def prepareExecution (tool : AdapterTool) (payload meta : PyDict) :
    PyDict × Option JValue × JValue × Option JValue :=
  let byoCredentials := dget meta "credentials"
  let payloadCredentials := dget payload "credentials"
  let payload := dremove payload "credentials"
  let payloadCredentials :=
    if !truthyO payloadCredentials && dcontains payload "token" then
      some (.obj [("token", dgetD payload "token" .null)])
    else
      payloadCredentials
  let finalCredentials :=
    if truthyO payloadCredentials then payloadCredentials else byoCredentials
  let credentialMode : JValue :=
    if truthyO finalCredentials then .str "byo"
    else (dget meta "credential_mode").getD (.str tool.credential_mode)
  let tenantId := dget meta "tenant_id"
  (payload, finalCredentials, credentialMode, tenantId)

/-- `AdapterService.execute_tool` (`service.py` lines 42-111).  Credential
resolution happens *before* the `try:` block, so a fault it raises escapes
as `.error`; the `try:` block itself is `dispatchTool`.  The concurrency
semaphore only sequences runs and is not modelled. -/
def executeTool (settings : SvcSettings) (up : Upstream)
    (restExec mcpExec : ExecOracle) (tool : AdapterTool)
    (payload meta : PyDict) : ExecOutcome :=
  match prepareExecution tool payload meta with
  | (payload1, finalCredentials, credentialMode, tenantId) =>
    match resolveCredentialsV2 settings up tool credentialMode tenantId finalCredentials with
    | (.error fault, calls) =>
      { result := .error fault, calls := calls, mode := credentialMode,
        dispatched := none, unsupported := false }
    | (.ok credentials, calls) =>
      dispatchTool restExec mcpExec tool payload1 credentialMode calls credentials

/-! ## Executors (`executors.py`) -/

/-- `ends with` helper. -/
def strEndsWith (s p : String) : Bool :=
  p.toList.isSuffixOf s.toList

/-- `CredentialInjector._resolve_first_credential`: the `str()` of the first
truthy credential value, if any. -/
def resolveFirstCredential (credentials : PyDict) : Option String :=
  (credentials.find? (fun p => p.2.truthy)).map (fun p => pyStr p.2)

/-- `str.format(**credentials)` on a template of plain `{name}` placeholders
(the only shape the adapter is configured with): each placeholder is
replaced by the stringified credential field. -/
def formatMap (template : String) (fields : PyDict) : String :=
  fields.foldl
    (fun acc p => strReplace acc ("\x7b" ++ p.1 ++ "\x7d") (pyStr p.2)) template

/-- `CredentialInjector.build_auth` (`executors.py` lines 26-57): headers and
query parameters derived from the tool's auth configuration.  Note the
source reads the auth config from `metadata["adapter"]["auth"]`. -/
def buildAuth (tool : AdapterTool) (credentials : Option JValue) :
    StrDict × StrDict :=
  if !truthyO credentials then ([], [])
  else
    let credsV := credentials.getD .null
    let credsFields := credsV.objFields
    let metaDict := tool.metadata.getD []
    let adapterMeta := dgetD metaDict "adapter" (.obj [])
    let auth := pyOr ((jget adapterMeta "auth").getD .null) (.obj [])
    let authType := jget auth "type"
    if (authType.map (fun v => jeqStr v "api_key")).getD false then
      let keyName := ((jget auth "name").getD (.str "Authorization")).asStr
      let location := (jget auth "in").getD (.str "header")
      let template := jget auth "value_template"
      let value :=
        if truthyO template then
          some (formatMap ((template.getD .null).asStr) credsFields)
        else
          resolveFirstCredential credsFields
      match value with
      | none => ([], [])
      | some v =>
        if jeqStr location "query" then ([], [(keyName, v)])
        else ([(keyName, v)], [])
    else if (authType.map (fun v => jeqStr v "bearer")).getD false then
      let token : Option String :=
        match jget credsV "access_token" with
        | some v =>
          if v.truthy then some (pyStr v) else resolveFirstCredential credsFields
        | none => resolveFirstCredential credsFields
      match token with
      | some t =>
        if t.isEmpty then ([], []) else ([("Authorization", "Bearer " ++ t)], [])
      | none => ([], [])
    else
      ([], [])

/-- `RestExecutor._build_url`: substitute `{key}` tokens of the template
URL from payload fields, tracking the consumed keys. -/
def buildUrl (baseUrl path : String) (payload : PyDict) : String × List String :=
  payload.foldl
    (fun acc p =>
      let token := "\x7b" ++ p.1 ++ "\x7d"
      if strContainsSub acc.1 token then
        (strReplace acc.1 token (pyStr p.2), acc.2 ++ [p.1])
      else acc)
    (rstripChar baseUrl '/' ++ path, [])

/-- Python `isinstance(value, (str, int, float, bool))`. -/
def isScalar : JValue → Bool
  | .str _ => true
  | .num _ => true
  | .bool _ => true
  | _ => false

/-- `RestExecutor._extract_query_params`. -/
def extractQueryParams (payload : PyDict) (usedKeys : List String) : StrDict :=
  payload.filterMap (fun p =>
    if p.1 = "body" || usedKeys.contains p.1 then none
    else if isScalar p.2 then some (p.1, pyStr p.2)
    else none)

/-- Fuelled JSON serialiser modelling `json.dumps` (default separators;
string escaping is omitted — no claim's inputs need it).  The fuel bounds
nesting depth and is always ample for the concrete inputs evaluated. -/
def jsonDumpsAux : Nat → JValue → String
  | _, .null => "null"
  | _, .bool b => if b then "true" else "false"
  | _, .num n => toString n
  | _, .str s => "\"" ++ s ++ "\""
  | 0, _ => ""
  | fuel + 1, .arr xs =>
    "[" ++ String.intercalate ", " (xs.map (jsonDumpsAux fuel)) ++ "]"
  | fuel + 1, .obj fs =>
    "\x7b" ++ String.intercalate ", "
      (fs.map (fun p => "\"" ++ p.1 ++ "\": " ++ jsonDumpsAux fuel p.2)) ++ "\x7d"

/-- `json.dumps`. -/
def jsonDumps (v : JValue) : String :=
  jsonDumpsAux 1000 v

/-- `RestExecutor._extract_body_params`: scalars are stringified, other
non-null values JSON-encoded, `None` values skipped. -/
def extractBodyParams (payload : PyDict) (excludeKeys : List String) : StrDict :=
  payload.filterMap (fun p =>
    if excludeKeys.contains p.1 then none
    else if isScalar p.2 then some (p.1, pyStr p.2)
    else
      match p.2 with
      | .null => none
      | v => some (p.1, jsonDumps v))

/-- The HTTP request a `RestExecutor.execute` attempt dispatches. -/
structure RestRequest where
  method : String
  url : String
  headers : StrDict
  query : StrDict
  bodyData : Option String := none
  formData : Option StrDict := none

/-- Request construction of `RestExecutor.execute` (`executors.py` lines
77-120): credential injection, URL templating and method-dependent payload
placement, everything that happens before the network attempt loop. -/
def buildRestRequest (tool : AdapterTool) (operation : RestOperation)
    (payload : PyDict) (credentials : Option JValue) : RestRequest :=
  let (authHeaders, authQuery) := buildAuth tool credentials
  let headers := authHeaders
  let query := authQuery
  let built := buildUrl operation.base_url operation.path payload
  let url := built.1
  let usedKeys := built.2
  let method := strUpper operation.method
  if method = "POST" || method = "PUT" || method = "PATCH" then
    let explicitBody :=
      match dget payload "body" with
      | some .null => none
      | x => x
    match explicitBody with
    | some b =>
      let headers := sinsert headers "Content-Type" "application/json"
      let query := supdate query (extractQueryParams payload (usedKeys ++ ["body"]))
      { method := method, url := url, headers := headers, query := query,
        bodyData := some (jsonDumps b), formData := none }
    | none =>
      let adapterMeta := dgetD (tool.metadata.getD []) "adapter" (.obj [])
      let contentType :=
        ((jget adapterMeta "content_type").getD
          (.str "application/x-www-form-urlencoded")).asStr
      let bodyParams := extractBodyParams payload (usedKeys ++ ["operation"])
      if bodyParams.isEmpty then
        { method := method, url := url, headers := headers, query := query }
      else if contentType = "application/json" then
        let headers := sinsert headers "Content-Type" "application/json"
        { method := method, url := url, headers := headers, query := query,
          bodyData :=
            some (jsonDumps (.obj (bodyParams.map (fun p => (p.1, .str p.2))))),
          formData := none }
      else
        let headers :=
          sinsert headers "Content-Type" "application/x-www-form-urlencoded"
        { method := method, url := url, headers := headers, query := query,
          bodyData := none, formData := some bodyParams }
  else
    let headers := sinsert headers "Content-Type" "application/json"
    let query := supdate query (extractQueryParams payload usedKeys)
    { method := method, url := url, headers := headers, query := query }

/-- The executors' shared retry loop (`executors.py` lines 122-165 and
228-249).  `outcome a` is what attempt number `a` (1-based) produces: a
response value or the exception it raises.  The result pairs the terminal
outcome (`.error` models the single raised `ExecutionError`) with the list
of backoff sleeps performed between attempts, each `min(2 ** attempt, cap)`.
Recursion is on an explicit fuel equal to the remaining permitted attempts,
which is exhausted exactly when the retry budget is. -/
def retryLoop (backoffCap : Nat) (outcome : Nat → Except String JValue)
    (maxRetries : Nat) : Nat → Nat → Except String JValue × List Nat
  | attempt, 0 =>
    (match outcome (attempt + 1) with
     | .ok v => .ok v
     | .error e => .error e, [])
  | attempt, fuel + 1 =>
    let a := attempt + 1
    match outcome a with
    | .ok v => (.ok v, [])
    | .error e =>
      if a > maxRetries then (.error e, [])
      else
        let r := retryLoop backoffCap outcome maxRetries a fuel
        (r.1, min (2 ^ a) backoffCap :: r.2)

/-- `RestExecutor.__init__` default retry budget. -/
def restExecutorDefaultMaxRetries : Nat := 2

/-- `McpExecutor.__init__` default retry budget. -/
def mcpExecutorDefaultMaxRetries : Nat := 1

/-- The attempt loop of `RestExecutor.execute`: 1 initial attempt plus
`maxRetries` retries, backoff capped at 6 seconds. -/
def restExecuteRetry (maxRetries : Nat) (outcome : Nat → Except String JValue) :
    Except String JValue × List Nat :=
  retryLoop 6 outcome maxRetries 0 (maxRetries + 1)

/-- The attempt loop of `McpExecutor.execute`: backoff capped at 4 seconds. -/
def mcpExecuteRetry (maxRetries : Nat) (outcome : Nat → Except String JValue) :
    Except String JValue × List Nat :=
  retryLoop 4 outcome maxRetries 0 (maxRetries + 1)

/-- `McpExecutor._normalize_mcp_url`. -/
def normalizeMcpUrl (serverUrl : String) : String :=
  if strEndsWith serverUrl "/mcp" then serverUrl
  else rstripChar serverUrl '/' ++ "/mcp"

/-- The JSON-RPC envelope `McpExecutor.execute` posts. -/
def buildMcpRequestBody (operation : McpOperation) (payload : PyDict) : JValue :=
  .obj [("jsonrpc", .str "2.0"), ("id", .str "call-1"),
    ("method", .str "tools/call"),
    ("params", .obj [("name", .str operation.method),
      ("arguments", .obj payload)])]

/-! ## OpenAPI spec loader (`openapi.py`) -/

/-- `a or b` on strings. -/
def pyOrS (a b : String) : String :=
  if a.isEmpty then b else a

/-- One parsed operation (`openapi.OpenAPIOperation`, minus the derived
pydantic input model, which no claim touches). -/
structure OpenAPIOperation where
  operation_id : String
  method : String
  path : String
  description : String

/-- `OpenAPILoader._fallback_operation_id`: synthesise an id from method +
path with separators replaced and parameter braces stripped. -/
def fallbackOperationId (method path : String) : String :=
  let sanitized :=
    strReplace (strReplace (strReplace (stripChar path '/') "/" "_") "\x7b" "")
      "\x7d" ""
  method ++ "_" ++ (if sanitized.isEmpty then "root" else sanitized)

/-- The recognised HTTP methods of `extract_operations`. -/
def httpMethods : List String := ["get", "post", "put", "patch", "delete"]

/-- `OpenAPILoader.extract_operations` (`openapi.py` lines 46-71): one
operation per recognised method key of each path entry, with document or
synthesised operation ids. -/
def extractOperations (spec : JValue) : List OpenAPIOperation :=
  let paths := pyOr ((jget spec "paths").getD .null) (.obj [])
  paths.objFields.flatMap (fun entry =>
    let path := entry.1
    let methodsV := pyOr entry.2 (.obj [])
    methodsV.objFields.filterMap (fun me =>
      let method := me.1
      let operation := me.2
      if !httpMethods.contains (strLower method) then none
      else
        let operationId := (pyOr ((jget operation "operationId").getD .null)
          (.str (fallbackOperationId method path))).asStr
        let description := (pyOr ((jget operation "description").getD .null)
          (pyOr ((jget operation "summary").getD .null) (.str ""))).asStr
        some { operation_id := operationId, method := strLower method,
               path := path, description := description }))

/-- What one HTTP GET of a spec URL does: a response with a status code and
parsed body, or a raised transport error. -/
inductive FetchResult where
  | resp (status : Int) (body : JValue)
  | exn (msg : String)

/-- The per-URL document cache of `OpenAPILoader`: url ↦ (stored-at, doc). -/
abbrev SpecCache := List (String × Int × JValue)

/-- Store/replace a cache entry (`self._cache[url] = (time, data)`). -/
def scInsert (cache : SpecCache) (url : String) (now : Int) (doc : JValue) :
    SpecCache :=
  if cache.any (fun e => e.1 = url) then
    cache.map (fun e => if e.1 = url then (url, now, doc) else e)
  else
    cache ++ [(url, now, doc)]

/-- `OpenAPILoader.load_spec` (`openapi.py` lines 31-44): fresh cache entries
are returned without fetching; a non-200 response yields `None` and leaves
the cache alone; a raised fetch error propagates (`.error`). -/
def loadSpec (fetch : String → FetchResult) (cacheSeconds now : Int)
    (cache : SpecCache) (url : String) :
    Except String (Option JValue × SpecCache) :=
  let hit :=
    match cache.find? (fun e => e.1 = url) with
    | some e => if now - e.2.1 < cacheSeconds then some e.2.2 else none
    | none => none
  match hit with
  | some doc => .ok (some doc, cache)
  | none =>
    match fetch url with
    | .exn msg => .error msg
    | .resp status body =>
      if status ≠ 200 then .ok (none, cache)
      else .ok (some body, scInsert cache url now body)

/-! ## Tool registry (`tool_registry.py`) -/

/-- The slice of `config.Settings` the registry reads (allow-lists already
parsed into sets; empty list = unset). -/
structure RegSettings where
  adapter_tool_cache_seconds : Int := 300
  tool_allowlist : List String := []
  operation_allowlist : List String := []

/-- The registry's mutable cache (`_cache`, `_cache_timestamp`). -/
structure RegistryState where
  cache : List AdapterTool := []
  cache_timestamp : Int := 0

/-- The `adapter_metadata` dict assembled in `load_tools` lines 43-51.
Note the auth config lands under the top-level key `"auth"`. -/
def mkAdapterMetadata (record : ToolRecord) : PyDict :=
  [("type", .str record.adapter_type),
   ("openapi_url", optS record.openapi_url),
   ("base_url", optS record.base_url),
   ("operation_ids", .arr (record.operation_ids.map JValue.str)),
   ("auth", .obj record.auth_config),
   ("credential_mode", .str record.credential_mode),
   ("org_id", optS record.org_id)]

/-- `ToolRegistry._build_credential_ref`. -/
def buildCredentialRef (record : ToolRecord) : CredentialRef :=
  { credential_id := record.credential_id,
    credential_name := record.credential_name,
    credential_type := none,
    environment := record.credential_environment }

/-- `"operation_ids"` metadata value back to a string list. -/
def asStrListJ : JValue → List String
  | .arr xs => xs.map JValue.asStr
  | _ => []

/-- `ToolRegistry._extract_server_url`. -/
def extractServerUrl (spec : JValue) : Option JValue :=
  let servers := pyOr ((jget spec "servers").getD .null) (.arr [])
  if !servers.truthy then none
  else
    match servers with
    | .arr (server :: _) =>
      (match server with
       | .obj fs => dget fs "url"
       | _ => none)
    | _ => none

/-- `ToolRegistry._build_rest_tools` (`tool_registry.py` lines 72-129).
A missing OpenAPI URL, an unavailable (falsy) document or a missing base
URL skip the entry (`.ok ([], _)`); an error raised by the spec fetch
propagates out (`.error`). -/
def buildRestTools (fetch : String → FetchResult) (openapiCacheSeconds now : Int)
    (record : ToolRecord) (adapterMeta : PyDict) (opAllowlist : List String)
    (cache : SpecCache) : Except String (List AdapterTool × SpecCache) :=
  let openapiUrlV := dgetD adapterMeta "openapi_url" .null
  if !openapiUrlV.truthy then .ok ([], cache)
  else
    match loadSpec fetch openapiCacheSeconds now cache openapiUrlV.asStr with
    | .error e => .error e
    | .ok (specOpt, cache1) =>
      if !truthyO specOpt then .ok ([], cache1)
      else
        let spec := specOpt.getD .null
        let operations := extractOperations spec
        let allowedOps0 := asStrListJ (pyOr (dgetD adapterMeta "operation_ids" .null) (.arr []))
        let allowedOps :=
          if opAllowlist ≠ [] then allowedOps0 ++ opAllowlist else allowedOps0
        let baseUrlV :=
          let b := dgetD adapterMeta "base_url" .null
          if b.truthy then b else (extractServerUrl spec).getD .null
        if !baseUrlV.truthy then .ok ([], cache1)
        else
          let tools := operations.filterMap (fun op =>
            if allowedOps ≠ [] ∧ ¬ allowedOps.contains op.operation_id then none
            else some
              { tool_name := formatToolName (some record.name) op.operation_id,
                description := pyOrS op.description (pyOrS record.description ""),
                provider := pyOrS record.provider "unknown",
                category := pyOrS record.category "other",
                adapter_type := "rest",
                credential_mode := record.credential_mode,
                credential_ref := buildCredentialRef record,
                rest_operation := some
                  { operation_id := op.operation_id, method := op.method,
                    path := op.path, base_url := baseUrlV.asStr,
                    description := op.description },
                mcp_operation := none,
                metadata := some adapterMeta,
                tags := record.tags })
          .ok (tools, cache1)

/-- `ToolRegistry._build_mcp_tools` (`tool_registry.py` lines 131-162). -/
def buildMcpTools (record : ToolRecord) (allowlist : List String) :
    List AdapterTool :=
  let methods := record.operation_ids
  if !truthyStr record.mcp_server_url then []
  else
    let serverUrl := record.mcp_server_url.getD ""
    (if methods.isEmpty then ["call"] else methods).filterMap (fun method =>
      let toolName := formatToolName (some record.name) method
      if allowlist ≠ [] ∧ ¬ allowlist.contains toolName ∧
          ¬ allowlist.contains record.name then none
      else some
        { tool_name := toolName,
          description := pyOrS record.description "",
          provider := pyOrS record.provider "unknown",
          category := pyOrS record.category "other",
          adapter_type := "mcp",
          credential_mode := record.credential_mode,
          credential_ref := buildCredentialRef record,
          rest_operation := none,
          mcp_operation := some { method := method, server_url := serverUrl },
          metadata := some [("credential_mode", .str record.credential_mode)],
          tags := record.tags })

/-- The per-record loop of `ToolRegistry.load_tools` (lines 42-63): REST
records go through the spec loader (whose raised errors propagate), records
with an http message endpoint build message tools, anything else is
skipped. -/
def buildToolsLoop (settings : RegSettings) (fetch : String → FetchResult)
    (openapiCacheSeconds now : Int) :
    List ToolRecord → SpecCache → Except String (List AdapterTool × SpecCache)
  | [], cache => .ok ([], cache)
  | record :: rest, cache =>
    let adapterMeta := mkAdapterMetadata record
    if record.adapter_type = "rest" then
      match buildRestTools fetch openapiCacheSeconds now record adapterMeta
          settings.operation_allowlist cache with
      | .error e => .error e
      | .ok (ts, cache1) =>
        match buildToolsLoop settings fetch openapiCacheSeconds now rest cache1 with
        | .error e => .error e
        | .ok (ts2, cache2) => .ok (ts ++ ts2, cache2)
    else if (record.mcp_server_url.map
        (fun u => !u.isEmpty && strStartsWith u "http")).getD false then
      let ts := buildMcpTools record settings.tool_allowlist
      match buildToolsLoop settings fetch openapiCacheSeconds now rest cache with
      | .error e => .error e
      | .ok (ts2, cache2) => .ok (ts ++ ts2, cache2)
    else
      buildToolsLoop settings fetch openapiCacheSeconds now rest cache

/-- The rebuild path of `ToolRegistry.load_tools` (lines 37-70): fetch the
enabled catalog records, build tools per record, apply the tool allow-list,
and produce the new cache state. -/
def rebuildTools (settings : RegSettings) (fetch : String → FetchResult)
    (openapiCacheSeconds now : Int) (store : List ToolRecord)
    (specCache : SpecCache) :
    Except String (List AdapterTool × RegistryState × SpecCache) :=
  let records := store.filter (fun r => r.enabled)
  match buildToolsLoop settings fetch openapiCacheSeconds now records specCache with
  | .error e => .error e
  | .ok (tools0, cache1) =>
    let tools :=
      if settings.tool_allowlist ≠ [] then
        tools0.filter (fun t => settings.tool_allowlist.contains t.tool_name
          || settings.tool_allowlist.contains t.provider)
      else tools0
    .ok (tools, { cache := tools, cache_timestamp := now }, cache1)

/-- `ToolRegistry.load_tools` (`tool_registry.py` lines 33-70): return the
cached list while it is non-empty and fresh, otherwise rebuild and
overwrite the cache.  `store` is the catalog content at call time; `now`
plays `time.time()` (the build is instantaneous in the model). -/
def loadTools (settings : RegSettings) (fetch : String → FetchResult)
    (openapiCacheSeconds now : Int) (store : List ToolRecord)
    (st : RegistryState) (specCache : SpecCache) :
    Except String (List AdapterTool × RegistryState × SpecCache) :=
  if !st.cache.isEmpty ∧ now - st.cache_timestamp < settings.adapter_tool_cache_seconds then
    .ok (st.cache, st, specCache)
  else
    rebuildTools settings fetch openapiCacheSeconds now store specCache

/-! ## Concrete fixtures -/

/-- Upstream oracle that answers every request with "nothing found". -/
def upNone : Upstream :=
  { resolveCredential := fun _ _ _ _ => none,
    getCredentialTypeId := fun _ => none,
    listCredentials := fun _ _ => [] }

/-- Executor oracle that always succeeds with `null`. -/
def execNull : ExecOracle := fun _ _ => .ok .null

/-- A REST operation fixture (Slack-style message post). -/
def demoPostOp : RestOperation :=
  { operation_id := "chat_postMessage", method := "post",
    path := "/chat.postMessage", base_url := "https://slack.com/api",
    description := "" }

/-- A REST operation fixture with a GET method. -/
def demoGetOp : RestOperation :=
  { operation_id := "conversations_list", method := "get",
    path := "/conversations.list", base_url := "https://slack.com/api",
    description := "" }

/-- A registry-shaped BYO-mode REST tool. -/
def byoRestTool : AdapterTool :=
  { tool_name := "mcp_slack_chat_postmessage", description := "",
    provider := "slack", category := "communication", adapter_type := "rest",
    credential_mode := "byo", credential_ref := {},
    rest_operation := some demoPostOp, mcp_operation := none,
    metadata := none, tags := [] }

/-- The same tool with the legacy (neither byo nor hosted) default mode and
an empty credential reference. -/
def legacyRestTool : AdapterTool :=
  { byoRestTool with credential_mode := "legacy" }

/-- A hosted-mode tool whose composed name carries the `github` provider. -/
def hostedGithubTool : AdapterTool :=
  { tool_name := "mcp_github_repos_list", description := "",
    provider := "github", category := "developer", adapter_type := "rest",
    credential_mode := "hosted", credential_ref := {},
    rest_operation := some
      { operation_id := "repos_list", method := "get", path := "/user/repos",
        base_url := "https://api.github.com", description := "" },
    mcp_operation := none, metadata := none, tags := [] }

/-- A GET tool used for the payload-forwarding analysis. -/
def slackGetTool : AdapterTool :=
  { byoRestTool with
    tool_name := "mcp_slack_conversations_list"
    rest_operation := some demoGetOp }

/-- A Slack-style payload carrying a bearer token as a business field. -/
def slackPayload : PyDict :=
  [("token", .str "xoxb-secret"), ("limit", .num 5)]

/-- A small OpenAPI document: one server, one path with one GET operation. -/
def demoSpec : JValue :=
  .obj [("servers", .arr [.obj [("url", .str "https://api.example.com")]]),
    ("paths", .obj [("/messages", .obj [("get",
      .obj [("operationId", .str "list_messages")])])])]

/-- Catalog record of a REST tool whose declared auth type is `bearer`. -/
def slackRecord : ToolRecord :=
  { id := 1, name := "slack", description := "Slack API", provider := "slack",
    category := "communication", adapter_type := "rest", enabled := true,
    mcp_server_url := none,
    openapi_url := some "https://specs.example.com/slack.json",
    base_url := none, operation_ids := [],
    auth_config := [("type", .str "bearer")], tags := [],
    credential_mode := "hosted", credential_id := none,
    credential_name := none, credential_environment := "production",
    org_id := none }

/-- Fetch oracle serving `demoSpec` for the slack record's URL. -/
def fetchDemo : String → FetchResult := fun url =>
  if url = "https://specs.example.com/slack.json" then .resp 200 demoSpec
  else .exn "unknown url"

/-- The tools the registry builds from `slackRecord` alone. -/
def slackRegistryTools : List AdapterTool :=
  match loadTools {} fetchDemo 3600 0 [slackRecord] {} [] with
  | .ok (ts, _, _) => ts
  | .error _ => []


/-- The message tool the registry builds from `notionRecord`. -/
def notionRecord : ToolRecord :=
  { id := 3, name := "notion", description := "", provider := "notion",
    category := "productivity", adapter_type := "mcp", enabled := true,
    mcp_server_url := some "https://mcp.notion.example", openapi_url := none,
    base_url := none, operation_ids := [], auth_config := [], tags := [],
    credential_mode := "hosted", credential_id := none, credential_name := none,
    credential_environment := "production", org_id := none }

/-- The AdapterTool `buildMcpTools` produces for `notionRecord`. -/
def notionTool : AdapterTool :=
  { tool_name := "mcp_notion_call"
    description := ""
    provider := "notion"
    category := "productivity"
    adapter_type := "mcp"
    credential_mode := "hosted"
    credential_ref := { credential_id := none, credential_name := none, credential_type := none, environment := "production" }
    rest_operation := none
    mcp_operation := some { method := "call", server_url := "https://mcp.notion.example" }
    metadata := some [("credential_mode", .str "hosted")]
    tags := [] }

/-- Credentials fixture: a single token field. -/
def demoCredentials : JValue := .obj [("token", .str "secret-token")]

/-- A tool whose metadata nests the auth config under the `"adapter"` key
that `CredentialInjector.build_auth` actually reads. -/
def adapterNestedBearerTool : AdapterTool :=
  { byoRestTool with
    metadata := some [("adapter", .obj [("auth", .obj [("type", .str "bearer")])])] }

/-- REST catalog record whose spec fetch raises. -/
def recA : ToolRecord :=
  { slackRecord with
    id := 10
    name := "alpha"
    openapi_url := some "https://specs.example.com/a.json" }

/-- REST catalog record whose spec fetch succeeds. -/
def recB : ToolRecord :=
  { slackRecord with
    id := 11
    name := "beta"
    openapi_url := some "https://specs.example.com/b.json" }

/-- Fetch oracle for the two-record rebuild: `recA`'s URL raises, `recB`'s
URL serves `demoSpec`. -/
def fetchC4 : String → FetchResult := fun url =>
  if url = "https://specs.example.com/a.json" then .exn "boom"
  else if url = "https://specs.example.com/b.json" then .resp 200 demoSpec
  else .exn "unknown url"

/-- The tools a rebuild over `[recB]` alone produces. -/
def onlyBTools : List AdapterTool :=
  match loadTools {} fetchC4 3600 0 [recB] {} [] with
  | .ok (ts, _, _) => ts
  | .error _ => []

/-- First registry call: time 0, empty catalog, cold cache. -/
def c6FirstTools : List AdapterTool :=
  match loadTools {} fetchDemo 3600 0 [] {} [] with
  | .ok (ts, _, _) => ts
  | .error _ => []

/-- Second registry call: time 1 (within the 300s default interval of the
build at time 0), after `notionRecord` was added to the catalog. -/
def c6SecondTools : List AdapterTool :=
  match loadTools {} fetchDemo 3600 1 [notionRecord]
      { cache := [], cache_timestamp := 0 } [] with
  | .ok (ts, _, _) => ts
  | .error _ => []
/-- Fetch oracle answering `recA`'s URL with a 503 and `recB`'s with 200. -/
def fetchNon200 : String → FetchResult := fun url =>
  if url = "https://specs.example.com/a.json" then .resp 503 .null
  else if url = "https://specs.example.com/b.json" then .resp 200 demoSpec
  else .exn "unknown url"

/-- Attempt oracle whose every attempt raises. -/
def alwaysFail : Nat → Except String JValue := fun _ => .error "connection refused"

/-- The registry state after the cold build over `[slackRecord]` at time 0. -/
def slackRegistryState : RegistryState :=
  { cache := slackRegistryTools, cache_timestamp := 0 }

/-- The spec-loader cache after that build. -/
def slackSpecCache : SpecCache :=
  [("https://specs.example.com/slack.json", 0, demoSpec)]

/-- The structural invariant claim C10 asserts of registry-built tools. -/
def WFTool (t : AdapterTool) : Prop :=
  (t.adapter_type = "rest" ∧ t.rest_operation.isSome = true) ∨
  (t.adapter_type = "mcp" ∧ t.mcp_operation.isSome = true)

/-! ## Helper lemmas and theorems -/

/-- Removing a key removes every binding of it. -/
theorem dget_dremove (d : PyDict) (k : String) : dget (dremove d k) k = none := by
  induction d with
  | nil => rfl
  | cons p rest ih =>
    by_cases h : p.1 = k
    · have hstep : dremove (p :: rest) k = dremove rest k := by
        simp [dremove, h]
      rw [hstep]
      exact ih
    · have hstep : dremove (p :: rest) k = p :: dremove rest k := by
        simp [dremove, h]
      have hget : dget (p :: dremove rest k) k = dget (dremove rest k) k := by
        simp [dget, List.find?, h]
      rw [hstep, hget]
      exact ih

/-- A dispatch hands over exactly the payload it was given. -/
theorem dispatchTool_payload {restExec mcpExec : ExecOracle} {tool : AdapterTool}
    {payload : PyDict} {credentialMode : JValue} {calls : List ClientCall}
    {credentials : Option JValue} {d : PyDict} {c : Option JValue}
    (h : (dispatchTool restExec mcpExec tool payload credentialMode calls
      credentials).dispatched = some (d, c)) : d = payload := by
  unfold dispatchTool at h
  repeat' split at h
  all_goals simp_all

/-- A dispatch performs no upstream calls of its own. -/
theorem dispatchTool_calls (restExec mcpExec : ExecOracle) (tool : AdapterTool)
    (payload : PyDict) (credentialMode : JValue) (calls : List ClientCall)
    (credentials : Option JValue) :
    (dispatchTool restExec mcpExec tool payload credentialMode calls
      credentials).calls = calls := by
  unfold dispatchTool
  repeat' split
  all_goals rfl

/-- A dispatch reports the credential mode it was given. -/
theorem dispatchTool_mode (restExec mcpExec : ExecOracle) (tool : AdapterTool)
    (payload : PyDict) (credentialMode : JValue) (calls : List ClientCall)
    (credentials : Option JValue) :
    (dispatchTool restExec mcpExec tool payload credentialMode calls
      credentials).mode = credentialMode := by
  unfold dispatchTool
  repeat' split
  all_goals rfl

/-- A one-field object wrapped in `some` is truthy. -/
theorem truthyO_some_obj_cons (p : String × JValue) (fs : PyDict) :
    truthyO (some (.obj (p :: fs))) = true := rfl

/-- When the caller supplied truthy credentials anywhere, the prepared
final credentials are truthy. -/
theorem prepare_final_truthy (tool : AdapterTool) (payload meta : PyDict)
    (hcreds : truthyO (dget payload "credentials") = true ∨
      dcontains (dremove payload "credentials") "token" = true ∨
      truthyO (dget meta "credentials") = true) :
    truthyO (prepareExecution tool payload meta).2.1 = true := by
  unfold prepareExecution
  dsimp only
  by_cases h1 : truthyO (dget payload "credentials") = true
  · simp [h1]
  · have h1f : truthyO (dget payload "credentials") = false := by
      simpa using h1
    by_cases h2 : dcontains (dremove payload "credentials") "token" = true
    · simp [h1f, h2, truthyO_some_obj_cons]
    · have h2f : dcontains (dremove payload "credentials") "token" = false := by
        simpa using h2
      have h3 : truthyO (dget meta "credentials") = true := by
        rcases hcreds with h | h | h
        · exact absurd h h1
        · exact absurd h h2
        · exact h
      simp [h1f, h2f, h3]

/-- Truthy final credentials force the auto-detected mode to `"byo"`. -/
theorem prepare_mode_byo (tool : AdapterTool) (payload meta : PyDict)
    (h : truthyO (prepareExecution tool payload meta).2.1 = true) :
    (prepareExecution tool payload meta).2.2.1 = .str "byo" := by
  unfold prepareExecution at *
  dsimp only at *
  rw [if_pos h]

/-- BYO-mode resolution with truthy credentials returns them and calls
nothing upstream. -/
theorem resolveV2_byo (settings : SvcSettings) (up : Upstream)
    (tool : AdapterTool) (tenantId : Option JValue) (creds : Option JValue)
    (h : truthyO creds = true) :
    resolveCredentialsV2 settings up tool (.str "byo") tenantId creds
      = (.ok creds, []) := by
  unfold resolveCredentialsV2
  simp [jeqStr, h]

/-- Dropping a record whose REST build contributes nothing and leaves the
spec cache unchanged does not change the loop result. -/
theorem buildToolsLoop_skip_head
    (set : RegSettings) (fetch : String → FetchResult) (ocs now : Int)
    (r : ToolRecord) (l : List ToolRecord) (cache : SpecCache)
    (ht : r.adapter_type = "rest")
    (hrest : buildRestTools fetch ocs now r (mkAdapterMetadata r)
      set.operation_allowlist cache = .ok ([], cache)) :
    buildToolsLoop set fetch ocs now (r :: l) cache
      = buildToolsLoop set fetch ocs now l cache := by
  conv_lhs => unfold buildToolsLoop
  simp only [ht, if_pos, hrest]
  cases hbt : buildToolsLoop set fetch ocs now l cache with
  | error e => simp [hbt]
  | ok p => cases p with | mk ts2 c2 => simp [hbt]

/-- A cold-cache call always takes the rebuild path. -/
theorem loadTools_cold (set : RegSettings) (fetch : String → FetchResult)
    (ocs now : Int) (store : List ToolRecord) (sc : SpecCache) :
    loadTools set fetch ocs now store {} sc
      = rebuildTools set fetch ocs now store sc := by
  simp [loadTools]

/-- Claim C4 (amended): a spec fetch that completes with a *non-success
status* makes the rebuild skip only that catalog entry — rebuilding over
the catalog with and without the failing entry gives identical results.
A fetch that *raises*, by contrast, aborts the whole rebuild (see the
counterexample `spec_fetch_error_aborts_rebuild`). -/
theorem non_success_fetch_skips_entry
    (set : RegSettings) (fetch : String → FetchResult) (ocs now : Int)
    (r1 r2 : ToolRecord) (u : String) (s : Int) (body : JValue)
    (he : r1.enabled = true) (ht : r1.adapter_type = "rest")
    (hu : r1.openapi_url = some u) (hne : u.isEmpty = false)
    (hf : fetch u = .resp s body) (hs : s ≠ 200) :
    loadTools set fetch ocs now [r1, r2] {} []
      = loadTools set fetch ocs now [r2] {} [] := by
  have hmeta : dgetD (mkAdapterMetadata r1) "openapi_url" .null = .str u := by
    simp [mkAdapterMetadata, dgetD, dget, List.find?, hu, optS]
  have hrest : buildRestTools fetch ocs now r1 (mkAdapterMetadata r1)
      set.operation_allowlist [] = .ok ([], []) := by
    unfold buildRestTools
    rw [hmeta]
    simp [JValue.truthy, hne, JValue.asStr, loadSpec, List.find?, hf, hs, truthyO]
  rw [loadTools_cold, loadTools_cold]
  unfold rebuildTools
  have hfil : List.filter (fun r => r.enabled) [r1, r2]
      = r1 :: List.filter (fun r => r.enabled) [r2] := by
    simp [List.filter, he]
  dsimp only
  rw [hfil, buildToolsLoop_skip_head set fetch ocs now r1 _ [] ht hrest]

/-- Claim C3 (amended): whatever `execute_tool` hands to an executor, the
`"credentials"` field has been stripped from the payload first.  A
token-like field such as `"token"`, by contrast, is only *read* to infer
BYO mode and stays in the payload (see the counterexample
`token_field_forwarded_to_executor`). -/
theorem credentials_stripped_before_dispatch
    (settings : SvcSettings) (up : Upstream) (restExec mcpExec : ExecOracle)
    (tool : AdapterTool) (payload meta : PyDict) (d : PyDict) (c : Option JValue)
    (h : (executeTool settings up restExec mcpExec tool payload meta).dispatched
      = some (d, c)) :
    dget d "credentials" = none := by
  unfold executeTool at h
  rcases hp : prepareExecution tool payload meta with ⟨p1, fc, mode, tid⟩
  rw [hp] at h
  dsimp only at h
  split at h
  · simp at h
  · rw [dispatchTool_payload h]
    have hp1 : p1 = dremove payload "credentials" := by
      have h1 := congrArg Prod.fst hp
      simp only [prepareExecution] at h1
      exact h1.symm
    rw [hp1]
    exact dget_dremove payload "credentials"

/-- Claim C9: when the caller supplies (truthy) credentials — under the
payload `"credentials"` field, inferred from a payload `"token"` field, or
in the request meta — and no tenant id is present, the effective mode is
BYO and the execution performs no upstream credential-resolution call,
whatever the tool's declared default mode is. -/
theorem byo_mode_no_upstream_calls
    (settings : SvcSettings) (up : Upstream) (restExec mcpExec : ExecOracle)
    (tool : AdapterTool) (payload meta : PyDict)
    (hcreds : truthyO (dget payload "credentials") = true ∨
      dcontains (dremove payload "credentials") "token" = true ∨
      truthyO (dget meta "credentials") = true)
    (_htenant : dget meta "tenant_id" = none) :
    (executeTool settings up restExec mcpExec tool payload meta).calls = []
    ∧ (executeTool settings up restExec mcpExec tool payload meta).mode
      = .str "byo" := by
  have hfc := prepare_final_truthy tool payload meta hcreds
  have hmode := prepare_mode_byo tool payload meta hfc
  unfold executeTool
  rcases hp : prepareExecution tool payload meta with ⟨p1, fc, mode, tid⟩
  rw [hp] at hfc hmode
  dsimp only at hfc hmode
  subst hmode
  dsimp only
  rw [resolveV2_byo settings up tool tid fc hfc]
  exact ⟨dispatchTool_calls .., dispatchTool_mode ..⟩

/-- Claim C8: a REST executor with the default budget of 2 retries whose
attempts 1-3 all fail produces exactly one terminal execution error (the
last attempt's), having slept backoffs `[2, 4]` between consecutive
attempts — non-decreasing and capped at the fixed maximum of 6 seconds. -/
theorem rest_retry_exhaustion (outcome : Nat → Except String JValue)
    (e1 e2 e3 : String)
    (h1 : outcome 1 = .error e1) (h2 : outcome 2 = .error e2)
    (h3 : outcome 3 = .error e3) :
    restExecuteRetry restExecutorDefaultMaxRetries outcome = (.error e3, [2, 4])
    ∧ List.Chain' (· ≤ ·) [2, 4] ∧ ∀ b ∈ [2, 4], b ≤ 6 := by
  refine ⟨?_, by simp [List.chain'_cons, List.chain'_singleton], by decide⟩
  simp [restExecuteRetry, restExecutorDefaultMaxRetries, retryLoop, h1, h2, h3]

/-- String equality via character data. -/
theorem str_ext {s t : String} (h : s.data = t.data) : s = t := by
  cases s; cases t; simp_all

/-- Appending on the left of a fixed string is injective. -/
theorem str_append_left_cancel {p a b : String} (h : p ++ a = p ++ b) : a = b := by
  have hd := congrArg String.data h
  simp only [String.data_append] at hd
  exact str_ext (List.append_cancel_left hd)

/-- Claim C7 (amended): the composed tool name is deterministic (it is a
pure function of the pair).  For pairs with *non-empty* catalog names, two
composed names coincide exactly when the sanitized `name_operation`
concatenations coincide, so distinct raw pairs whose sanitizations agree —
case differences, non-alphanumeric characters, or underscore ambiguity
between the two segments — collide (see the counterexample
`formatToolName_collision`).  An empty (or missing) catalog name
additionally falls back to the literal name `"tool"` and collides with a
catalog entry actually named `"tool"` (second and third conjuncts). -/
theorem formatToolName_eq_iff :
    (∀ n1 o1 n2 o2 : String, n1 ≠ "" → n2 ≠ "" →
      (formatToolName (some n1) o1 = formatToolName (some n2) o2 ↔
        sanitizeName n1 ++ "_" ++ sanitizeName o1
          = sanitizeName n2 ++ "_" ++ sanitizeName o2))
    ∧ formatToolName (some "") "c" = formatToolName (some "tool") "c"
    ∧ formatToolName (some "") "c" = formatToolName none "c" := by
  refine ⟨?_, rfl, rfl⟩
  intro n1 o1 n2 o2 h1 h2
  unfold formatToolName
  dsimp only
  rw [if_neg h1, if_neg h2]
  rw [String.append_assoc, String.append_assoc, String.append_assoc,
    String.append_assoc]
  constructor
  · intro h
    have hc := str_append_left_cancel h
    rw [← String.append_assoc, ← String.append_assoc] at hc
    exact hc
  · intro h
    rw [String.append_assoc, String.append_assoc] at h
    rw [h]

/-- Witness for `formatToolName_eq_iff`: applied at the concrete non-empty
names `"Slack"`/`"slack"`, whose sanitized concatenations agree, so the
composed names collide. -/
theorem formatToolName_eq_iff_witness :
    formatToolName (some "Slack") "post" = formatToolName (some "slack") "post" :=
  (formatToolName_eq_iff.1 "Slack" "post" "slack" "post"
    (by decide) (by decide)).mpr rfl

/-- Claim C6 (amended): when the previous build left a *non-empty* cached
list, a second `load_tools` call before the configured interval elapses
returns that list verbatim with the state untouched — for every catalog
content and fetch oracle, so the catalog is not re-read; and a call at or
after expiry performs the same rebuild a cold registry would, reflecting
the catalog passed at call time.  An empty cached list always rebuilds,
even inside the interval (see `empty_cache_rebuilds_within_interval`). -/
theorem cache_freshness
    (set : RegSettings) (fetch : String → FetchResult) (ocs now : Int)
    (store : List ToolRecord) (st : RegistryState) (sc : SpecCache) :
    ( st.cache ≠ [] → now - st.cache_timestamp < set.adapter_tool_cache_seconds →
      loadTools set fetch ocs now store st sc = .ok (st.cache, st, sc) )
    ∧ ( set.adapter_tool_cache_seconds ≤ now - st.cache_timestamp →
      loadTools set fetch ocs now store st sc
        = loadTools set fetch ocs now store {} sc ) := by
  constructor
  · intro hne hlt
    have hb : (!st.cache.isEmpty) = true := by
      simp [List.isEmpty_iff, hne]
    simp [loadTools, hb, hlt]
  · intro hge
    have hnlt : ¬(now - st.cache_timestamp < set.adapter_tool_cache_seconds) :=
      not_lt.mpr hge
    simp [loadTools, hnlt]

/-- Claim C6 (counterexample): a first call over an empty catalog caches
`[]`; a second call only 1 second later (well inside the 300-second
default interval) does not return the previous list verbatim — it re-reads
the changed catalog and returns the newly built tool. -/
theorem empty_cache_rebuilds_within_interval :
    c6FirstTools = [] ∧ c6SecondTools = [notionTool]
    ∧ c6SecondTools ≠ c6FirstTools := by
  refine ⟨rfl, rfl, ?_⟩
  intro h
  have h1 : c6SecondTools = [notionTool] := rfl
  have h2 : c6FirstTools = ([] : List AdapterTool) := rfl
  rw [h1, h2] at h
  exact absurd h (List.cons_ne_nil _ _)

/-- Witness for `cache_freshness` at concrete inputs: a warm non-empty
cache at time 5 is served verbatim; at time 400 the call equals a cold
rebuild. -/
theorem cache_freshness_witness :
    loadTools {} fetchDemo 3600 5 [notionRecord]
        { cache := [notionTool], cache_timestamp := 0 } []
      = .ok ([notionTool], { cache := [notionTool], cache_timestamp := 0 }, [])
    ∧ loadTools {} fetchDemo 3600 400 [notionRecord]
        { cache := [notionTool], cache_timestamp := 0 } []
      = loadTools {} fetchDemo 3600 400 [notionRecord] {} [] :=
  ⟨(cache_freshness {} fetchDemo 3600 5 [notionRecord]
      { cache := [notionTool], cache_timestamp := 0 } []).1
      (by simp) (by decide),
   (cache_freshness {} fetchDemo 3600 400 [notionRecord]
      { cache := [notionTool], cache_timestamp := 0 } []).2 (by decide)⟩

/-- Claim C7 (counterexample): two distinct (catalog-name, operation)
pairs with equal composed names — `("A", "c")` versus `("a", "c")`
(case folding) and `("a_b", "c")` versus `("a", "b_c")` (underscore
ambiguity) — so the composition is not collision-free as claimed. -/
theorem formatToolName_collision :
    formatToolName (some "A") "c" = formatToolName (some "a") "c"
    ∧ (("A", "c") : String × String) ≠ ("a", "c")
    ∧ formatToolName (some "a_b") "c" = formatToolName (some "a") "b_c"
    ∧ (("a_b", "c") : String × String) ≠ ("a", "b_c") :=
  ⟨rfl, by decide, rfl, by decide⟩

/-- Claim C1 (code bug): credential-resolution failures are *raised out
of* `execute_tool` rather than returned as the error envelope, because
`_resolve_credentials_v2` is called before the `try:` block: a BYO call
without credentials and a legacy call with an empty credential reference
both escape as faults, with no executor dispatch. -/
theorem credential_failure_escapes_execute_tool :
    (executeTool {} upNone execNull execNull byoRestTool [] []).result
      = .error (.executionError "Missing credentials for BYO tool call")
    ∧ (executeTool {} upNone execNull execNull legacyRestTool [] []).result
      = .error (.executionError "Hosted credential reference missing")
    ∧ (executeTool {} upNone execNull execNull byoRestTool [] []).dispatched
      = none :=
  ⟨rfl, rfl, rfl⟩

/-- Claim C2 (code bug): a hosted-mode execution (tenant id in meta, no
caller credentials) raises `AttributeError` — `AutomatosClient` defines no
`resolve_tool_credential` method — so *zero* upstream resolution calls are
made and no envelope is returned; the provider key the call would have
used is `"github"`, the first underscore-delimited segment after the
`mcp_` marker. -/
theorem hosted_resolution_missing_method :
    (executeTool {} upNone execNull execNull hostedGithubTool []
        [("tenant_id", .str "tenant-1")]).result
      = .error (.attributeError
        "AutomatosClient object has no attribute resolve_tool_credential")
    ∧ (executeTool {} upNone execNull execNull hostedGithubTool []
        [("tenant_id", .str "tenant-1")]).calls = []
    ∧ extractToolName "mcp_github_repos_list" = "github" :=
  ⟨rfl, rfl, rfl⟩

/-- Claim C3 (counterexample): a payload `{"token": ..., "limit": ...}`
is handed to the executor with its `"token"` field intact, and the built
GET request carries `token` among its query parameters — the token-like
field is forwarded to the upstream's business fields. -/
theorem token_field_forwarded_to_executor :
    (executeTool {} upNone execNull execNull slackGetTool slackPayload
        []).dispatched
      = some (slackPayload, some (.obj [("token", .str "xoxb-secret")]))
    ∧ (buildRestRequest slackGetTool demoGetOp slackPayload
        (some (.obj [("token", .str "xoxb-secret")]))).query
      = [("token", "xoxb-secret"), ("limit", "5")] :=
  ⟨rfl, rfl⟩

/-- Claim C4 (counterexample): with two enabled REST entries, a spec
fetch that *raises* for the first entry makes the whole `load_tools`
rebuild abort with that error, even though the second entry alone builds
one tool. -/
theorem spec_fetch_error_aborts_rebuild :
    loadTools {} fetchC4 3600 0 [recA, recB] {} [] = .error "boom"
    ∧ onlyBTools.length = 1 :=
  ⟨rfl, rfl⟩

/-- Claim C5 (code bug): the single tool the registry builds from a
catalog entry whose auth config has type `bearer` gets *no* auth injected
for a non-empty credential mapping — `CredentialInjector.build_auth` reads
`metadata["adapter"]["auth"]` while the registry stores the auth config
at `metadata["auth"]` (second conjunct).  A tool whose metadata nests the
config where the injector looks does get the `Authorization: Bearer`
header (third conjunct), pinning the mismatch. -/
theorem registry_bearer_auth_not_injected :
    slackRegistryTools.map (fun t => buildAuth t (some demoCredentials))
      = [([], [])]
    ∧ slackRegistryTools.map (fun t => t.metadata.map (fun m => dget m "auth"))
      = [some (some (.obj [("type", .str "bearer")]))]
    ∧ buildAuth adapterNestedBearerTool (some demoCredentials)
      = ([("Authorization", "Bearer secret-token")], []) :=
  ⟨rfl, rfl, rfl⟩

/-- Every tool built by the REST path is a REST tool with its descriptor. -/
theorem buildRestTools_wf
    (fetch : String → FetchResult) (ocs now : Int) (record : ToolRecord)
    (adapterMeta : PyDict) (opAllowlist : List String) (cache : SpecCache)
    (ts : List AdapterTool) (cache1 : SpecCache)
    (h : buildRestTools fetch ocs now record adapterMeta opAllowlist cache
      = .ok (ts, cache1)) :
    ∀ t ∈ ts, WFTool t := by
  unfold buildRestTools at h
  dsimp only at h
  repeat' split at h
  all_goals first
  | exact Except.noConfusion h
  | (injection h with hpair
     injection hpair with h1 h2
     subst h1
     intro t ht
     first
     | exact absurd ht (List.not_mem_nil t)
     | (simp only [List.mem_filterMap] at ht
        obtain ⟨op, _, hf⟩ := ht
        split at hf
        · simp at hf
        · simp only [Option.some.injEq] at hf
          subst hf
          left
          exact ⟨rfl, rfl⟩))

/-- Every tool built by the message path is an MCP tool with its
descriptor. -/
theorem buildMcpTools_wf (record : ToolRecord) (allowlist : List String) :
    ∀ t ∈ buildMcpTools record allowlist, WFTool t := by
  unfold buildMcpTools
  split
  · intro t ht; simp at ht
  · intro t ht
    rw [List.mem_filterMap] at ht
    obtain ⟨m, _, hf⟩ := ht
    dsimp only at hf
    split at hf
    · simp at hf
    · simp only [Option.some.injEq] at hf
      subst hf
      right
      exact ⟨rfl, rfl⟩

/-- Every tool the record loop builds is well-formed. -/
theorem buildToolsLoop_wf (set : RegSettings) (fetch : String → FetchResult)
    (ocs now : Int) :
    ∀ (records : List ToolRecord) (cache : SpecCache) (ts : List AdapterTool)
      (cache1 : SpecCache),
    buildToolsLoop set fetch ocs now records cache = .ok (ts, cache1) →
    ∀ t ∈ ts, WFTool t := by
  intro records
  induction records with
  | nil =>
    intro cache ts cache1 h t ht
    simp only [buildToolsLoop, Except.ok.injEq, Prod.mk.injEq] at h
    obtain ⟨h1, _⟩ := h
    subst h1
    simp at ht
  | cons r rest ih =>
    intro cache ts cache1 h t ht
    rw [buildToolsLoop] at h
    split at h
    · -- REST branch
      split at h
      · exact Except.noConfusion h
      · rename_i ts1 c1 hbr
        split at h
        · exact Except.noConfusion h
        · rename_i ts2 c2 hbl
          simp only [Except.ok.injEq, Prod.mk.injEq] at h
          obtain ⟨h1, _⟩ := h
          subst h1
          rcases List.mem_append.mp ht with hmem | hmem
          · exact buildRestTools_wf fetch ocs now r _ _ _ _ _ hbr t hmem
          · exact ih _ _ _ hbl t hmem
    · split at h
      · -- MCP branch
        split at h
        · exact Except.noConfusion h
        · rename_i ts2 c2 hbl
          simp only [Except.ok.injEq, Prod.mk.injEq] at h
          obtain ⟨h1, _⟩ := h
          subst h1
          rcases List.mem_append.mp ht with hmem | hmem
          · exact buildMcpTools_wf r set.tool_allowlist t hmem
          · exact ih _ _ _ hbl t hmem
      · exact ih _ _ _ h t ht

/-- A well-formed tool never reaches the unsupported-configuration branch
of the dispatch. -/
theorem dispatchTool_wf_not_unsupported (restExec mcpExec : ExecOracle)
    (tool : AdapterTool) (payload : PyDict) (credentialMode : JValue)
    (calls : List ClientCall) (credentials : Option JValue)
    (hwf : WFTool tool) :
    (dispatchTool restExec mcpExec tool payload credentialMode calls
      credentials).unsupported = false := by
  unfold dispatchTool
  repeat' split
  any_goals rfl
  rename_i hc1 hc2
  rcases hwf with ⟨ha, hb⟩ | ⟨ha, hb⟩
  · simp [ha, hb] at hc1
  · simp [ha, hb] at hc2

/-- A well-formed tool never produces the unsupported-configuration
envelope from `execute_tool`. -/
theorem executeTool_wf_not_unsupported (settings : SvcSettings) (up : Upstream)
    (restExec mcpExec : ExecOracle) (tool : AdapterTool) (payload meta : PyDict)
    (hwf : WFTool tool) :
    (executeTool settings up restExec mcpExec tool payload meta).unsupported
      = false := by
  unfold executeTool
  rcases hp : prepareExecution tool payload meta with ⟨p1, fc, mode, tid⟩
  dsimp only
  rcases hres : resolveCredentialsV2 settings up tool mode tid fc with ⟨res, calls⟩
  cases res with
  | error f => rfl
  | ok creds =>
    exact dispatchTool_wf_not_unsupported restExec mcpExec tool p1 mode calls
      creds hwf

/-- Claim C10: every tool an (invariant-respecting) registry state lets
`load_tools` return is well-formed — REST tools carry a REST descriptor,
MCP tools an MCP descriptor — and consequently the `"Unsupported tool
configuration"` branch of `execute_tool` is unreachable for any tool
obtained from the registry, whatever the payload, meta and oracles. -/
theorem registry_invariant
    (set : RegSettings) (fetch : String → FetchResult) (ocs now : Int)
    (store : List ToolRecord) (st : RegistryState) (sc : SpecCache)
    (tools : List AdapterTool) (st1 : RegistryState) (sc1 : SpecCache)
    (hcache : ∀ t ∈ st.cache, WFTool t)
    (h : loadTools set fetch ocs now store st sc = .ok (tools, st1, sc1)) :
    (∀ t ∈ tools, WFTool t)
    ∧ ∀ t ∈ tools, ∀ (S : SvcSettings) (up : Upstream)
        (restExec mcpExec : ExecOracle) (payload meta : PyDict),
        (executeTool S up restExec mcpExec t payload meta).unsupported
          = false := by
  have hwfall : ∀ t ∈ tools, WFTool t := by
    unfold loadTools at h
    split at h
    · injection h with htrip
      injection htrip with h1 h2
      subst h1
      exact hcache
    · unfold rebuildTools at h
      dsimp only at h
      split at h
      · exact Except.noConfusion h
      · rename_i tools0 cache1 hbt
        injection h with htrip
        injection htrip with h1 h2
        subst h1
        intro t ht
        have ht0 : t ∈ tools0 := by
          split at ht
          · exact List.mem_of_mem_filter ht
          · exact ht
        exact buildToolsLoop_wf set fetch ocs now _ _ _ _ hbt t ht0
  exact ⟨hwfall, fun t ht S up restExec mcpExec payload meta =>
    executeTool_wf_not_unsupported S up restExec mcpExec t payload meta
      (hwfall t ht)⟩

/-- Witness for `credentials_stripped_before_dispatch`: the Slack GET run
dispatches `slackPayload` itself (which carried no credentials field), and
indeed no `"credentials"` binding survives. -/
theorem credentials_stripped_before_dispatch_witness :
    dget slackPayload "credentials" = none :=
  credentials_stripped_before_dispatch {} upNone execNull execNull
    slackGetTool slackPayload [] slackPayload
    (some (.obj [("token", .str "xoxb-secret")])) rfl

/-- Witness for `non_success_fetch_skips_entry`: a 503 for `recA`'s spec
URL leaves the rebuild equal to the rebuild without `recA`. -/
theorem non_success_fetch_skips_entry_witness :
    loadTools {} fetchNon200 3600 0 [recA, recB] {} []
      = loadTools {} fetchNon200 3600 0 [recB] {} [] :=
  non_success_fetch_skips_entry {} fetchNon200 3600 0 recA recB
    "https://specs.example.com/a.json" 503 .null rfl rfl rfl rfl rfl
    (by decide)

/-- Witness for `rest_retry_exhaustion`: three failing attempts under the
default budget. -/
theorem rest_retry_exhaustion_witness :
    restExecuteRetry restExecutorDefaultMaxRetries alwaysFail
      = (.error "connection refused", [2, 4])
    ∧ List.Chain' (· ≤ ·) [2, 4] ∧ ∀ b ∈ [2, 4], b ≤ 6 :=
  rest_retry_exhaustion alwaysFail "connection refused" "connection refused"
    "connection refused" rfl rfl rfl

/-- Witness for `byo_mode_no_upstream_calls`: a hosted-default tool
executed with a token-bearing payload and tenant-free meta. -/
theorem byo_mode_no_upstream_calls_witness :
    (executeTool {} upNone execNull execNull hostedGithubTool slackPayload
      []).calls = []
    ∧ (executeTool {} upNone execNull execNull hostedGithubTool slackPayload
      []).mode = .str "byo" :=
  byo_mode_no_upstream_calls {} upNone execNull execNull hostedGithubTool
    slackPayload [] (Or.inr (Or.inl rfl)) rfl

/-- Witness for `registry_invariant`: the cold build over `[slackRecord]`
yields only well-formed tools, on which the unsupported branch never
fires. -/
theorem registry_invariant_witness :
    (∀ t ∈ slackRegistryTools, WFTool t)
    ∧ ∀ t ∈ slackRegistryTools, ∀ (S : SvcSettings) (up : Upstream)
        (restExec mcpExec : ExecOracle) (payload meta : PyDict),
        (executeTool S up restExec mcpExec t payload meta).unsupported
          = false :=
  registry_invariant {} fetchDemo 3600 0 [slackRecord] {} []
    slackRegistryTools slackRegistryState slackSpecCache
    (fun t ht => absurd ht (List.not_mem_nil t)) rfl
